import Mathlib

/-!
Shallow embedding of the Pattern Analysis Engine of the Decision Memory app
(source: lib/analysis/patternAnalysis.ts and lib/types.ts).

JavaScript numbers are modelled by exact rationals; `Math.round` is modelled
by its tie-toward-positive-infinity semantics; the insertion-ordered `Map`
built from the review list is modelled by a left fold with overwrite
(last write wins); the stable `Array.prototype.sort` is modelled by
`List.insertionSort`, which is stable for ties.
-/

namespace DecisionMemory

/-- Enumeration of decision types, from lib/types.ts. -/
inductive DecisionType where
  | personal
  | work
  | finance
  | health
  | other
  deriving DecidableEq, Repr

/-- Importance levels, from lib/types.ts. -/
inductive Importance where
  | low
  | medium
  | high
  deriving DecidableEq, Repr

/-- Decision speed, from lib/types.ts. -/
inductive DecisionSpeed where
  | quick
  | moderate
  | slow
  deriving DecidableEq, Repr

/-- WouldRepeat is the union yes | no | unsure | null in lib/types.ts. -/
inductive WouldRepeat where
  | yes
  | no
  | unsure
  | nullRepeat
  deriving DecidableEq, Repr

/-- Confidence bands, from patternAnalysis.ts. -/
inductive ConfBand where
  | low
  | mid
  | high
  | very_high
  deriving DecidableEq, Repr

/-- Card strength levels, from patternAnalysis.ts. -/
inductive InsightStrength where
  | weak
  | medium
  | strong
  deriving DecidableEq, Repr

/-- Decision record, from lib/types.ts.  Timestamps are epoch milliseconds.
Fields the analysis engine never reads carry defaults so concrete records
stay short. -/
structure Decision where
  id : Option String := none
  title : String := ""
  reasoning : String := ""
  confidence : ℚ := 0
  decision_type : DecisionType := DecisionType.personal
  importance : Importance := Importance.low
  decision_speed : DecisionSpeed := DecisionSpeed.slow
  decision_driver : Option String := none
  expected_outcome : String := ""
  review_date : Int := 0
  created_at : Int := 0
  deriving DecidableEq, Repr

/-- Review record, from lib/types.ts.  The expectation comparison is kept as
a raw string because the source looks it up in a `Record<string, number>`
with a fallback of 0 for unknown keys. -/
structure Review where
  id : Option String := none
  decision_id : String := ""
  expectation_comparison : String := "as_expected"
  decision_quality : String := "reasonable"
  surprise_score : ℚ := 0
  what_happened : String := ""
  learning_note : String := ""
  would_repeat : WouldRepeat := WouldRepeat.nullRepeat
  reviewed_at : Int := 0
  created_at : Int := 0
  deriving DecidableEq, Repr

/-- OUTCOME_SCORE_MAP with the `?? 0` fallback for unknown keys. -/
def outcomeScoreMap (s : String) : ℚ :=
  if s = "much_worse" then -2
  else if s = "slightly_worse" then -1
  else if s = "as_expected" then 0
  else if s = "slightly_better" then 1
  else if s = "much_better" then 2
  else 0

/-- Function confBand from patternAnalysis.ts. -/
def confBand (conf : ℚ) : ConfBand :=
  if conf ≤ 39 then ConfBand.low
  else if conf ≤ 59 then ConfBand.mid
  else if conf ≤ 79 then ConfBand.high
  else ConfBand.very_high

/-- Function confProbFromBand from patternAnalysis.ts. -/
def confProbFromBand (b : ConfBand) : ℚ :=
  match b with
  | ConfBand.low => 3/10
  | ConfBand.mid => 1/2
  | ConfBand.high => 7/10
  | ConfBand.very_high => 9/10

/-- Function outcomeProbFromScore from patternAnalysis.ts. -/
def outcomeProbFromScore (score : ℚ) : ℚ :=
  if 0 < score then 1
  else if score = 0 then 1/2
  else 0

/-- DerivedDecision record, from patternAnalysis.ts.  The reviewedAt field
models `new Date(r.reviewed_at).getTime()`. -/
structure DerivedDecision where
  decision : Decision
  review : Review
  outcomeScore : ℚ
  confBandD : ConfBand
  confProb : ℚ
  outcomeProb : ℚ
  calibrationError : ℚ
  reviewedAt : Int
  deriving DecidableEq, Repr

/-- InsightEvidence record; `value` is always numeric in the source. -/
structure InsightEvidence where
  n : Nat
  metric : String
  value : ℚ
  baseline : Option ℚ := none
  lift : Option ℚ := none
  deriving DecidableEq, Repr

/-- InsightCard record from patternAnalysis.ts. -/
structure InsightCard where
  id : String
  title : String
  message : String
  tags : List String
  strength : InsightStrength
  evidence : List InsightEvidence
  actionHint : Option String := none
  deriving DecidableEq, Repr

/-- Baseline statistics returned by computeBaselines. -/
structure BaselineStats where
  reviewCount : Nat
  avgOutcomeScore : ℚ
  avgSurprise : ℚ
  avgCalibrationError : ℚ
  deriving DecidableEq, Repr

/-- Legacy ConfidenceInsight shape. -/
structure ConfidenceInsight where
  emoji : String := ""
  message : String := ""
  averageConfidence : ℚ
  wellCalibratedCount : Nat
  overconfidentCount : Nat
  underconfidentCount : Nat
  deriving DecidableEq, Repr

/-- Legacy SurpriseInsight shape. -/
structure SurpriseInsight where
  emoji : String := ""
  message : String := ""
  averageSurpriseScore : ℚ
  mostSurprisedDomain : Option String
  leastSurprisedDomain : Option String
  deriving DecidableEq, Repr

/-- Legacy SpeedInsight shape. -/
structure SpeedInsight where
  emoji : String := ""
  message : String := ""
  quickDecisionsRegretRate : ℚ
  moderateDecisionsRegretRate : ℚ
  slowDecisionsRegretRate : ℚ
  deriving DecidableEq, Repr

/-- Legacy RepeatInsight shape. -/
structure RepeatInsight where
  emoji : String := ""
  message : String := ""
  repeatRate : ℚ
  wouldRepeatCount : Nat
  wouldNotRepeatCount : Nat
  unsureCount : Nat
  deriving DecidableEq, Repr

/-- Result shape of generateInsights (LegacyInsights in the source; the
TS field named repeat is called repeatInsight here because repeat is a
Lean keyword). -/
structure LegacyInsights where
  cards : List InsightCard
  baseline : BaselineStats
  reviewCount : Nat
  minimumReviewsNeeded : Nat
  confidence : Option ConfidenceInsight
  surprise : Option SurpriseInsight
  speed : Option SpeedInsight
  repeatInsight : Option RepeatInsight
  deriving DecidableEq, Repr

/-- GATING_THRESHOLDS record from patternAnalysis.ts. -/
structure GatingThresholds where
  baselineCard : Nat
  segments : Nat
  segmentMinSamples : Nat
  trends : Nat

/-- The fixed gating constants. -/
def GATING_THRESHOLDS : GatingThresholds :=
  { baselineCard := 3, segments := 8, segmentMinSamples := 5, trends := 12 }

/-- Model of the helper round(n, digits = 2): Math.round(n * 100) / 100,
with Math.round rounding ties toward positive infinity. -/
def jsRound (x : ℚ) : ℚ :=
  (((x * 100 + 1/2).floor : ℤ) : ℚ) / 100

/-- Model of Math.round itself (ties toward positive infinity). -/
def jsRound0 (x : ℚ) : ℚ :=
  (((x + 1/2).floor : ℤ) : ℚ)

/-- Sum of f over a list via a left fold, mirroring reduce((s, d) => s + f d, 0). -/
def sumBy (l : List α) (f : α → ℚ) : ℚ :=
  l.foldl (fun s x => s + f x) 0

/-- Model of String(d.id): undefined stringifies to "undefined". -/
def decisionKey (d : Decision) : String :=
  match d.id with
  | some s => s
  | none => "undefined"

/-- Model of the Map built from reviews keyed by decision_id and then
queried: successive Map.set overwrites, so the last review with a given
decision_id wins. -/
def reviewLookup (reviews : List Review) (k : String) : Option Review :=
  reviews.foldl (fun acc r => if r.decision_id = k then some r else acc) none

/-- Construction of one derived record from a matched decision and review. -/
def mkDerived (d : Decision) (r : Review) : DerivedDecision :=
  let outcomeScore := outcomeScoreMap r.expectation_comparison
  let band := confBand d.confidence
  let confProb := confProbFromBand band
  let outcomeProb := outcomeProbFromScore outcomeScore
  { decision := d
    review := r
    outcomeScore := outcomeScore
    confBandD := band
    confProb := confProb
    outcomeProb := outcomeProb
    calibrationError := |confProb - outcomeProb|
    reviewedAt := r.reviewed_at }

/-- Relation used to sort derived records by reviewedAt ascending. -/
def reviewedAtLE (a b : DerivedDecision) : Prop :=
  a.reviewedAt ≤ b.reviewedAt

instance : DecidableRel reviewedAtLE := fun a b => inferInstanceAs (Decidable (_ ≤ _))

instance : IsTotal DerivedDecision reviewedAtLE := ⟨fun a b => Int.le_total a.reviewedAt b.reviewedAt⟩

instance : IsTrans DerivedDecision reviewedAtLE := ⟨fun _ _ _ h h' => le_trans h h'⟩

/-- Unsorted list of matched pairs, in decision-list order (the loop body
of derive before the final sort). -/
def derivePairs (decisions : List Decision) (reviews : List Review) : List DerivedDecision :=
  decisions.filterMap (fun d => (reviewLookup reviews (decisionKey d)).map (mkDerived d))

/-- Function derive from patternAnalysis.ts: join each decision with its
review, then sort ascending by reviewedAt (stable sort). -/
def derive (decisions : List Decision) (reviews : List Review) : List DerivedDecision :=
  (derivePairs decisions reviews).insertionSort reviewedAtLE

/-- Function computeBaselines from patternAnalysis.ts. -/
def computeBaselines (derived : List DerivedDecision) : BaselineStats :=
  let n := derived.length
  if n = 0 then
    { reviewCount := 0, avgOutcomeScore := 0, avgSurprise := 0, avgCalibrationError := 0 }
  else
    { reviewCount := n
      avgOutcomeScore := jsRound (sumBy derived (fun d => d.outcomeScore) / n)
      avgSurprise := jsRound (sumBy derived (fun d => d.review.surprise_score) / n)
      avgCalibrationError := jsRound (sumBy derived (fun d => d.calibrationError) / n) }

/-- String value of a decision type, as in the TS union. -/
def DecisionType.str : DecisionType → String
  | DecisionType.personal => "personal"
  | DecisionType.work => "work"
  | DecisionType.finance => "finance"
  | DecisionType.health => "health"
  | DecisionType.other => "other"

/-- String value of an importance level. -/
def Importance.str : Importance → String
  | Importance.low => "low"
  | Importance.medium => "medium"
  | Importance.high => "high"

/-- String value of a decision speed. -/
def DecisionSpeed.str : DecisionSpeed → String
  | DecisionSpeed.quick => "quick"
  | DecisionSpeed.moderate => "moderate"
  | DecisionSpeed.slow => "slow"

/-- String value of a confidence band. -/
def ConfBand.str : ConfBand → String
  | ConfBand.low => "low"
  | ConfBand.mid => "mid"
  | ConfBand.high => "high"
  | ConfBand.very_high => "very_high"

/-- A candidate segment: one cell of the four-way Cartesian product. -/
structure SegCombo where
  dtype : DecisionType
  imp : Importance
  spd : DecisionSpeed
  band : ConfBand
  deriving DecidableEq, Repr

/-- The nested loops of mineSegments enumerate the full product in this
fixed order: type outermost, then importance, speed, confidence band. -/
def allCombos : List SegCombo :=
  [DecisionType.personal, DecisionType.work, DecisionType.finance,
   DecisionType.health, DecisionType.other].flatMap (fun t =>
    [Importance.low, Importance.medium, Importance.high].flatMap (fun i =>
      [DecisionSpeed.quick, DecisionSpeed.moderate, DecisionSpeed.slow].flatMap (fun s =>
        [ConfBand.low, ConfBand.mid, ConfBand.high, ConfBand.very_high].map (fun b =>
          { dtype := t, imp := i, spd := s, band := b }))))

/-- The filter predicate of mineSegments: exact match on all four attributes. -/
def segMatches (c : SegCombo) (d : DerivedDecision) : Bool :=
  d.decision.decision_type = c.dtype && d.decision.importance = c.imp &&
    d.decision.decision_speed = c.spd && d.confBandD = c.band

/-- Loop body of mineSegments for one candidate combination: returns the
card pushed for this segment, or none when the segment is skipped. -/
def segmentCard? (derived : List DerivedDecision) (baseline : BaselineStats)
    (c : SegCombo) : Option InsightCard :=
  let seg := derived.filter (segMatches c)
  if seg.length = 0 then none else
  let n := seg.length
  let avgOutcome := sumBy seg (fun x => x.outcomeScore) / n
  let avgSurprise := sumBy seg (fun x => x.review.surprise_score) / n
  let repeatRate := sumBy seg (fun x => if x.review.would_repeat = WouldRepeat.yes then 1 else 0) / n
  let avgCalError := sumBy seg (fun x => x.calibrationError) / n
  let outcomeLift := if baseline.reviewCount ≠ 0 then avgOutcome - baseline.avgOutcomeScore else 0
  let surpriseLift := if baseline.reviewCount ≠ 0 then avgSurprise - baseline.avgSurprise else 0
  let calErrorLift := if baseline.reviewCount ≠ 0 then avgCalError - baseline.avgCalibrationError else 0
  if n < GATING_THRESHOLDS.segmentMinSamples then none else
  if |outcomeLift| ≥ 1/2 ∨ |surpriseLift| ≥ 12 ∨ |calErrorLift| ≥ 3/20 ∨ repeatRate < 1/2 then
    let score := |outcomeLift| * 2 + |surpriseLift| / 10 + |calErrorLift| * 3 +
      (if 6 ≤ n then 1 else 0)
    let strength :=
      if 3 < score then InsightStrength.strong
      else if 6/5 < score then InsightStrength.medium
      else InsightStrength.weak
    some
      { id := "seg-" ++ c.dtype.str ++ "-" ++ c.imp.str ++ "-" ++ c.spd.str ++ "-" ++ c.band.str
        -- title and message are presentational template strings in the source;
        -- their interpolated text is not modelled
        title := c.dtype.str ++ " - " ++ c.imp.str ++ " - " ++ c.spd.str ++ " - " ++ c.band.str
        message := "outcomes differ from your baseline"
        tags := ["segment", c.dtype.str, c.imp.str, c.spd.str, c.band.str]
        strength := strength
        evidence :=
          [ { n := n, metric := "avgOutcome", value := jsRound avgOutcome,
              baseline := some baseline.avgOutcomeScore, lift := some (jsRound outcomeLift) },
            { n := n, metric := "avgSurprise", value := jsRound avgSurprise,
              baseline := some baseline.avgSurprise, lift := some (jsRound surpriseLift) },
            { n := n, metric := "avgCalibrationError", value := jsRound avgCalError,
              baseline := some baseline.avgCalibrationError, lift := some (jsRound calErrorLift) },
            { n := n, metric := "repeatRate", value := jsRound (repeatRate * 100) } ]
        actionHint := some "Notice the pattern and consider how you can test this in future decisions." }
  else none

/-- Sort key of the final segment sort: sum of absolute evidence lifts
(entries without a numeric lift contribute 0). -/
def liftScore (card : InsightCard) : ℚ :=
  card.evidence.foldl (fun s e => s + (match e.lift with | some l => |l| | none => 0)) 0

/-- Relation for the descending stable sort of segment cards. -/
def liftScoreGE (a b : InsightCard) : Prop :=
  liftScore b ≤ liftScore a

instance : DecidableRel liftScoreGE := fun a b => inferInstanceAs (Decidable (_ ≤ _))

instance : IsTotal InsightCard liftScoreGE := ⟨fun a b => le_total (liftScore b) (liftScore a)⟩

instance : IsTrans InsightCard liftScoreGE := ⟨fun _ _ _ h h' => le_trans h' h⟩

/-- Function mineSegments from patternAnalysis.ts: enumerate candidates,
keep the interesting ones, sort by summed absolute lift descending
(stable), keep the top 6. -/
def mineSegments (derived : List DerivedDecision) (baseline : BaselineStats) : List InsightCard :=
  ((allCombos.filterMap (segmentCard? derived baseline)).insertionSort liftScoreGE).take 6

/-- Mean of f over a list, as in the avg helper of analyzeTrends. -/
def avgBy (l : List DerivedDecision) (f : DerivedDecision → ℚ) : ℚ :=
  sumBy l f / l.length

/-- Outcome trend card (fields from the source; message text elided). -/
def outcomeTrendCard (lastN : Nat) (delta : ℚ) : InsightCard :=
  { id := "trend-outcome", title := "Outcome Trend",
    message := "Your average outcome score changed",
    tags := ["trend", "outcome"],
    strength := if 1 < |delta| then InsightStrength.strong else InsightStrength.medium,
    evidence := [ { n := lastN, metric := "outcomeDelta", value := delta } ],
    actionHint := some "Watch whether this persists over the next window." }

/-- Surprise trend card. -/
def surpriseTrendCard (lastN : Nat) (delta : ℚ) : InsightCard :=
  { id := "trend-surprise", title := "Surprise Trend",
    message := "Your surprise score changed",
    tags := ["trend", "surprise"],
    strength := if 15 < |delta| then InsightStrength.strong else InsightStrength.medium,
    evidence := [ { n := lastN, metric := "surpriseDelta", value := delta } ],
    actionHint := some "This suggests your mental model is shifting." }

/-- Calibration trend card. -/
def calibrationTrendCard (lastN : Nat) (delta : ℚ) : InsightCard :=
  { id := "trend-calibration", title := "Calibration Trend",
    message := "Your calibration error changed",
    tags := ["trend", "calibration"],
    strength := if 3/25 < |delta| then InsightStrength.strong else InsightStrength.medium,
    evidence := [ { n := lastN, metric := "calErrorDelta", value := delta } ],
    actionHint := some "If this improves, you are getting better at predicting outcomes." }

/-- The three conditional pushes at the end of analyzeTrends. -/
def trendCards (lastN : Nat) (outcomeDelta surpriseDelta calErrorDelta : ℚ) : List InsightCard :=
  (if 1/2 ≤ |outcomeDelta| then [outcomeTrendCard lastN outcomeDelta] else []) ++
  (if 8 ≤ |surpriseDelta| then [surpriseTrendCard lastN surpriseDelta] else []) ++
  (if 1/20 ≤ |calErrorDelta| then [calibrationTrendCard lastN calErrorDelta] else [])

/-- Function analyzeTrends from patternAnalysis.ts.  slice(-k) is modelled
by drop (n - k) and slice(-2k, -k) by drop (n - 2k) then take k. -/
def analyzeTrends (derived : List DerivedDecision) : List InsightCard :=
  let n := derived.length
  if n < 2 then [] else
  let lastN := min 10 (n / 2)
  if lastN < 1 then [] else
  let tl := derived.drop (n - lastN)
  let pv := (derived.drop (n - 2 * lastN)).take lastN
  if pv.length = 0 then [] else
  let outcomeDelta := jsRound (avgBy tl (fun d => d.outcomeScore) - avgBy pv (fun d => d.outcomeScore))
  let surpriseDelta := jsRound (avgBy tl (fun d => d.review.surprise_score) - avgBy pv (fun d => d.review.surprise_score))
  let calErrorDelta := jsRound (avgBy tl (fun d => d.calibrationError) - avgBy pv (fun d => d.calibrationError))
  trendCards lastN outcomeDelta surpriseDelta calErrorDelta

/-- The trend window: min(10, floor(total / 2)). -/
def trendWindow (n : Nat) : Nat := min 10 (n / 2)

/-- The last window pairs (slice(-window)). -/
def trendTail (derived : List DerivedDecision) : List DerivedDecision :=
  derived.drop (derived.length - trendWindow derived.length)

/-- The window pairs immediately preceding the tail
(slice(-2 window, -window)). -/
def trendPrev (derived : List DerivedDecision) : List DerivedDecision :=
  (derived.drop (derived.length - 2 * trendWindow derived.length)).take
    (trendWindow derived.length)

/-- Mean-over-tail minus mean-over-prev for metric f, rounded to two
decimals as analyzeTrends does before comparing with its thresholds. -/
def trendDelta (derived : List DerivedDecision) (f : DerivedDecision → ℚ) : ℚ :=
  jsRound (avgBy (trendTail derived) f - avgBy (trendPrev derived) f)

/-- Numeric ascending relation used for sorting confidences. -/
def ratLE (a b : ℚ) : Prop := a ≤ b

instance : DecidableRel ratLE := fun a b => inferInstanceAs (Decidable (_ ≤ _))

instance : IsTotal ℚ ratLE := ⟨fun a b => le_total a b⟩

instance : IsTrans ℚ ratLE := ⟨fun _ _ _ h h' => le_trans h h'⟩

/-- The calibration-summary card built inside generateInsights once the
baseline gate passes.  arr[m] style indexing is modelled with getD; the
indices used are in bounds whenever the list is non-empty. -/
def baselineCardOf (derived : List DerivedDecision) (baseline : BaselineStats) : InsightCard :=
  let arr := (derived.map (fun d => d.decision.confidence)).insertionSort ratLE
  let m := arr.length / 2
  let medianConfidence :=
    if arr.length % 2 = 1 then arr.getD m 0
    else jsRound0 ((arr.getD (m - 1) 0 + arr.getD m 0) / 2)
  let q1 := arr.getD ((arr.length - 1) / 4) 0
  let q3 := arr.getD ((arr.length - 1) * 3 / 4) 0
  let iqr := q3 - q1
  { id := "calibration-summary"
    title := "Confidence Calibration"
    message := "Median confidence and average calibration error"
    tags := ["calibration"]
    strength := if 8 ≤ derived.length then InsightStrength.strong else InsightStrength.medium
    evidence :=
      [ { n := derived.length, metric := "medianConfidence", value := medianConfidence },
        { n := derived.length, metric := "iqr", value := iqr },
        { n := derived.length, metric := "avgCalibrationError", value := baseline.avgCalibrationError } ]
    actionHint := some "Observe which contexts show higher calibration error." }

/-- Legacy confidence summary (shown after 3+ reviews). -/
def confidenceInsightOf (derived : List DerivedDecision) : ConfidenceInsight :=
  let n := derived.length
  let avgConf := jsRound0 (sumBy derived (fun d => d.decision.confidence) / n)
  { averageConfidence := avgConf
    wellCalibratedCount := derived.countP (fun d => |d.confProb - d.outcomeProb| ≤ 3/20)
    overconfidentCount := derived.countP (fun d => ¬(|d.confProb - d.outcomeProb| ≤ 3/20) ∧ d.outcomeProb < d.confProb)
    underconfidentCount := derived.countP (fun d => ¬(|d.confProb - d.outcomeProb| ≤ 3/20) ∧ ¬(d.outcomeProb < d.confProb))
    message := "How your confidence matches reality" }

/-- One step of the insertion-ordered domain map: update the entry for key
k, or append a fresh one. -/
def upsertDomain (acc : List (String × Nat × ℚ)) (k : String) (v : ℚ) : List (String × Nat × ℚ) :=
  if acc.any (fun p => p.1 = k) then
    acc.map (fun p => if p.1 = k then (p.1, p.2.1 + 1, p.2.2 + v) else p)
  else acc ++ [(k, 1, v)]

/-- The domain map of the surprise summary: keys in first-insertion order,
each with its count and surprise total (JS Map iteration order). -/
def domainMap (derived : List DerivedDecision) : List (String × Nat × ℚ) :=
  derived.foldl (fun acc d => upsertDomain acc d.decision.decision_type.str d.review.surprise_score) []

/-- Fold selecting the domain with strictly largest mean surprise, first
encountered wins ties (mostVal starts below every value). -/
def mostSurprised (entries : List (String × Nat × ℚ)) : Option String :=
  (entries.foldl
    (fun best p =>
      let av := p.2.2 / (p.2.1 : ℚ)
      match best with
      | none => some (p.1, av)
      | some q => if q.2 < av then some (p.1, av) else some q)
    none).map (fun q => q.1)

/-- Fold selecting the domain with strictly smallest mean surprise. -/
def leastSurprised (entries : List (String × Nat × ℚ)) : Option String :=
  (entries.foldl
    (fun best p =>
      let av := p.2.2 / (p.2.1 : ℚ)
      match best with
      | none => some (p.1, av)
      | some q => if av < q.2 then some (p.1, av) else some q)
    none).map (fun q => q.1)

/-- Legacy surprise summary. -/
def surpriseInsightOf (derived : List DerivedDecision) : SurpriseInsight :=
  let n := derived.length
  let avgSurprise := jsRound (sumBy derived (fun d => d.review.surprise_score) / n)
  let entries := domainMap derived
  { averageSurpriseScore := avgSurprise
    mostSurprisedDomain := mostSurprised entries
    leastSurprisedDomain := leastSurprised entries
    message := "Where outcomes surprised you" }

/-- Regret rate of one speed bucket: percentage of would_repeat = no,
0 for an empty bucket, as in the source ternaries. -/
def speedRegretRate (part : List DerivedDecision) : ℚ :=
  if part.length = 0 then 0
  else jsRound0 ((part.countP (fun d => d.review.would_repeat = WouldRepeat.no) / (part.length : ℚ)) * 100)

/-- Legacy speed summary. -/
def speedInsightOf (derived : List DerivedDecision) : SpeedInsight :=
  { quickDecisionsRegretRate := speedRegretRate (derived.filter (fun d => d.decision.decision_speed = DecisionSpeed.quick))
    moderateDecisionsRegretRate := speedRegretRate (derived.filter (fun d => d.decision.decision_speed = DecisionSpeed.moderate))
    slowDecisionsRegretRate := speedRegretRate (derived.filter (fun d => d.decision.decision_speed = DecisionSpeed.slow))
    message := "Speed vs regret patterns" }

/-- Legacy repeat summary. -/
def repeatInsightOf (derived : List DerivedDecision) : RepeatInsight :=
  let n := derived.length
  let would := derived.countP (fun d => d.review.would_repeat = WouldRepeat.yes)
  let wouldNot := derived.countP (fun d => d.review.would_repeat ≠ WouldRepeat.yes ∧ d.review.would_repeat = WouldRepeat.no)
  let unsure := derived.countP (fun d => d.review.would_repeat ≠ WouldRepeat.yes ∧ d.review.would_repeat ≠ WouldRepeat.no)
  { repeatRate := jsRound0 (((would : ℚ) / n) * 100)
    wouldRepeatCount := would
    wouldNotRepeatCount := wouldNot
    unsureCount := unsure
    message := "How often you would repeat decisions" }

/-- Everything generateInsights computes after deriving the pairs is a pure
function of the derived list; this is that function. -/
def insightsOfDerived (derived : List DerivedDecision) : LegacyInsights :=
  let baseline := computeBaselines derived
  let reviewCount := derived.length
  let cards :=
    (if GATING_THRESHOLDS.baselineCard ≤ reviewCount ∧ 0 < derived.length
      then [baselineCardOf derived baseline] else []) ++
    (if GATING_THRESHOLDS.segments ≤ reviewCount then mineSegments derived baseline else []) ++
    (if GATING_THRESHOLDS.trends ≤ reviewCount then analyzeTrends derived else [])
  { cards := cards
    baseline := baseline
    reviewCount := reviewCount
    minimumReviewsNeeded := GATING_THRESHOLDS.baselineCard
    confidence := if GATING_THRESHOLDS.baselineCard ≤ reviewCount then some (confidenceInsightOf derived) else none
    surprise := if GATING_THRESHOLDS.baselineCard ≤ reviewCount then some (surpriseInsightOf derived) else none
    speed := if GATING_THRESHOLDS.baselineCard ≤ reviewCount then some (speedInsightOf derived) else none
    repeatInsight := if GATING_THRESHOLDS.baselineCard ≤ reviewCount then some (repeatInsightOf derived) else none }

/-- Function generateInsights from patternAnalysis.ts (the async wrapper
performs no effects; the value it resolves to is modelled). -/
def generateInsights (decisions : List Decision) (reviews : List Review) : LegacyInsights :=
  insightsOfDerived (derive decisions reviews)

/-! Concrete records used to instantiate theorems and exhibit counterexamples. -/

/-- Short constructor for a decision with the fields the engine reads. -/
def mkD (i : String) (conf : ℚ) (t : DecisionType) (imp : Importance) (s : DecisionSpeed) : Decision :=
  { id := some i, confidence := conf, decision_type := t, importance := imp, decision_speed := s }

/-- Short constructor for a review with the fields the engine reads. -/
def mkR (i : String) (ec : String) (ss : ℚ) (wr : WouldRepeat) (t : Int) : Review :=
  { decision_id := i, expectation_comparison := ec, surprise_score := ss, would_repeat := wr, reviewed_at := t }

/-- Scenario data: 5 reviewed work/high/quick decisions at confidence 90
whose reviews all say would_repeat = no, plus 3 unrelated reviewed
decisions, 8 reviewed records in total. -/
def scCdecisions : List Decision :=
  [ mkD "a1" 90 DecisionType.work Importance.high DecisionSpeed.quick,
    mkD "a2" 90 DecisionType.work Importance.high DecisionSpeed.quick,
    mkD "a3" 90 DecisionType.work Importance.high DecisionSpeed.quick,
    mkD "a4" 90 DecisionType.work Importance.high DecisionSpeed.quick,
    mkD "a5" 90 DecisionType.work Importance.high DecisionSpeed.quick,
    mkD "b1" 50 DecisionType.personal Importance.low DecisionSpeed.slow,
    mkD "b2" 50 DecisionType.personal Importance.low DecisionSpeed.slow,
    mkD "b3" 50 DecisionType.personal Importance.low DecisionSpeed.slow ]

/-- Reviews matching scCdecisions one to one. -/
def scCreviews : List Review :=
  [ mkR "a1" "as_expected" 10 WouldRepeat.no 1,
    mkR "a2" "as_expected" 10 WouldRepeat.no 2,
    mkR "a3" "as_expected" 10 WouldRepeat.no 3,
    mkR "a4" "as_expected" 10 WouldRepeat.no 4,
    mkR "a5" "as_expected" 10 WouldRepeat.no 5,
    mkR "b1" "as_expected" 10 WouldRepeat.yes 6,
    mkR "b2" "as_expected" 10 WouldRepeat.yes 7,
    mkR "b3" "as_expected" 10 WouldRepeat.yes 8 ]

/-- Eight reviewed decisions whose outcome scores sum to 1, so the mean
outcome score is exactly 1/8 = 0.125, a tie at the second decimal. -/
def tieDecisions : List Decision :=
  [ mkD "c1" 50 DecisionType.personal Importance.low DecisionSpeed.slow,
    mkD "c2" 50 DecisionType.personal Importance.low DecisionSpeed.slow,
    mkD "c3" 50 DecisionType.personal Importance.low DecisionSpeed.slow,
    mkD "c4" 50 DecisionType.personal Importance.low DecisionSpeed.slow,
    mkD "c5" 50 DecisionType.personal Importance.low DecisionSpeed.slow,
    mkD "c6" 50 DecisionType.personal Importance.low DecisionSpeed.slow,
    mkD "c7" 50 DecisionType.personal Importance.low DecisionSpeed.slow,
    mkD "c8" 50 DecisionType.personal Importance.low DecisionSpeed.slow ]

/-- Reviews for tieDecisions: one slightly_better, seven as_expected. -/
def tieReviews : List Review :=
  [ mkR "c1" "slightly_better" 0 WouldRepeat.yes 1,
    mkR "c2" "as_expected" 0 WouldRepeat.yes 2,
    mkR "c3" "as_expected" 0 WouldRepeat.yes 3,
    mkR "c4" "as_expected" 0 WouldRepeat.yes 4,
    mkR "c5" "as_expected" 0 WouldRepeat.yes 5,
    mkR "c6" "as_expected" 0 WouldRepeat.yes 6,
    mkR "c7" "as_expected" 0 WouldRepeat.yes 7,
    mkR "c8" "as_expected" 0 WouldRepeat.yes 8 ]

/-- Eighteen reviewed decisions; the first nine (by review time) have
calibration error 0, the last nine have calibration errors summing to
1.1, so the window-9 calibration delta is 11/90, strictly between 0.12
and 0.125. -/
def trendDecisions : List Decision :=
  [ mkD "p0" 50 DecisionType.personal Importance.low DecisionSpeed.slow,
    mkD "p1" 50 DecisionType.personal Importance.low DecisionSpeed.slow,
    mkD "p2" 50 DecisionType.personal Importance.low DecisionSpeed.slow,
    mkD "p3" 50 DecisionType.personal Importance.low DecisionSpeed.slow,
    mkD "p4" 50 DecisionType.personal Importance.low DecisionSpeed.slow,
    mkD "p5" 50 DecisionType.personal Importance.low DecisionSpeed.slow,
    mkD "p6" 50 DecisionType.personal Importance.low DecisionSpeed.slow,
    mkD "p7" 50 DecisionType.personal Importance.low DecisionSpeed.slow,
    mkD "p8" 50 DecisionType.personal Importance.low DecisionSpeed.slow,
    mkD "t0" 90 DecisionType.personal Importance.low DecisionSpeed.slow,
    mkD "t1" 70 DecisionType.personal Importance.low DecisionSpeed.slow,
    mkD "t2" 50 DecisionType.personal Importance.low DecisionSpeed.slow,
    mkD "t3" 50 DecisionType.personal Importance.low DecisionSpeed.slow,
    mkD "t4" 50 DecisionType.personal Importance.low DecisionSpeed.slow,
    mkD "t5" 50 DecisionType.personal Importance.low DecisionSpeed.slow,
    mkD "t6" 50 DecisionType.personal Importance.low DecisionSpeed.slow,
    mkD "t7" 50 DecisionType.personal Importance.low DecisionSpeed.slow,
    mkD "t8" 50 DecisionType.personal Importance.low DecisionSpeed.slow ]

/-- Reviews for trendDecisions: review times 0..17; t0 (confidence 90,
as expected) has calibration error 0.4, t1 (confidence 70, much worse)
has 0.7, everything else 0. -/
def trendReviews : List Review :=
  [ mkR "p0" "as_expected" 0 WouldRepeat.yes 0,
    mkR "p1" "as_expected" 0 WouldRepeat.yes 1,
    mkR "p2" "as_expected" 0 WouldRepeat.yes 2,
    mkR "p3" "as_expected" 0 WouldRepeat.yes 3,
    mkR "p4" "as_expected" 0 WouldRepeat.yes 4,
    mkR "p5" "as_expected" 0 WouldRepeat.yes 5,
    mkR "p6" "as_expected" 0 WouldRepeat.yes 6,
    mkR "p7" "as_expected" 0 WouldRepeat.yes 7,
    mkR "p8" "as_expected" 0 WouldRepeat.yes 8,
    mkR "t0" "as_expected" 0 WouldRepeat.yes 9,
    mkR "t1" "much_worse" 0 WouldRepeat.yes 10,
    mkR "t2" "as_expected" 0 WouldRepeat.yes 11,
    mkR "t3" "as_expected" 0 WouldRepeat.yes 12,
    mkR "t4" "as_expected" 0 WouldRepeat.yes 13,
    mkR "t5" "as_expected" 0 WouldRepeat.yes 14,
    mkR "t6" "as_expected" 0 WouldRepeat.yes 15,
    mkR "t7" "as_expected" 0 WouldRepeat.yes 16,
    mkR "t8" "as_expected" 0 WouldRepeat.yes 17 ]

/-- One decision with two conflicting reviews for the same decision_id:
the engine keeps whichever review comes later in the list. -/
def dupDecision : Decision := mkD "x" 50 DecisionType.personal Importance.low DecisionSpeed.slow

/-- First of the two duplicate reviews (surprise 10). -/
def dupReviewA : Review := mkR "x" "as_expected" 10 WouldRepeat.yes 1

/-- Second of the two duplicate reviews (surprise 50). -/
def dupReviewB : Review := mkR "x" "as_expected" 50 WouldRepeat.yes 1

/-- Modelled from the spec: rounding to 2 decimal places using round half
to even (consistent bankers rounding), the rule the spec prescribes for
the baseline averages; used only to compare against the rounding the
code actually performs. -/
def roundHalfEven2 (x : ℚ) : ℚ :=
  let y := x * 100
  let f := y.floor
  let r := y - f
  let z : ℤ :=
    if r < 1/2 then f
    else if 1/2 < r then f + 1
    else if f % 2 = 0 then f else f + 1
  (z : ℚ) / 100

/-- The segment combination of scenario C. -/
def combo9 : SegCombo :=
  { dtype := DecisionType.work, imp := Importance.high, spd := DecisionSpeed.quick,
    band := ConfBand.very_high }

/-- scCdecisions with its first two elements swapped (a permutation). -/
def scCdecisionsSwapped : List Decision :=
  [ mkD "a2" 90 DecisionType.work Importance.high DecisionSpeed.quick,
    mkD "a1" 90 DecisionType.work Importance.high DecisionSpeed.quick,
    mkD "a3" 90 DecisionType.work Importance.high DecisionSpeed.quick,
    mkD "a4" 90 DecisionType.work Importance.high DecisionSpeed.quick,
    mkD "a5" 90 DecisionType.work Importance.high DecisionSpeed.quick,
    mkD "b1" 50 DecisionType.personal Importance.low DecisionSpeed.slow,
    mkD "b2" 50 DecisionType.personal Importance.low DecisionSpeed.slow,
    mkD "b3" 50 DecisionType.personal Importance.low DecisionSpeed.slow ]

/-- scCreviews with its first two elements swapped (a permutation). -/
def scCreviewsSwapped : List Review :=
  [ mkR "a2" "as_expected" 10 WouldRepeat.no 2,
    mkR "a1" "as_expected" 10 WouldRepeat.no 1,
    mkR "a3" "as_expected" 10 WouldRepeat.no 3,
    mkR "a4" "as_expected" 10 WouldRepeat.no 4,
    mkR "a5" "as_expected" 10 WouldRepeat.no 5,
    mkR "b1" "as_expected" 10 WouldRepeat.yes 6,
    mkR "b2" "as_expected" 10 WouldRepeat.yes 7,
    mkR "b3" "as_expected" 10 WouldRepeat.yes 8 ]

/-- The derived pairs of the scenario input. -/
def scCderived : List DerivedDecision := derive scCdecisions scCreviews

/-- A default card used only as a getD fallback. -/
def defaultCard : InsightCard :=
  { id := "", title := "", message := "", tags := [], strength := InsightStrength.weak,
    evidence := [] }

/-- The first card the segment miner returns on the scenario input. -/
def c8wCard : InsightCard :=
  (mineSegments scCderived (computeBaselines scCderived)).getD 0 defaultCard

/-- The first evidence row of that card. -/
def c8wEvidence : InsightEvidence :=
  c8wCard.evidence.getD 0 { n := 0, metric := "", value := 0 }

/-- The lift recorded in that evidence row. -/
def c8wLift : ℚ := c8wEvidence.lift.getD 0

/-! Helper lemmas. -/

theorem ratFloor_eq_intFloor (q : ℚ) : q.floor = ⌊q⌋ := by
  rw [Rat.floor_def', Rat.floor_def]

theorem jsRound_eq (x : ℚ) : jsRound x = ((⌊x * 100 + 1/2⌋ : ℤ) : ℚ) / 100 := by
  rw [jsRound, ratFloor_eq_intFloor]

theorem jsRound_sub_of_div100 (x : ℚ) (k : ℤ) :
    jsRound (x - (k : ℚ) / 100) = jsRound x - (k : ℚ) / 100 := by
  rw [jsRound_eq, jsRound_eq]
  have h : (x - (k : ℚ) / 100) * 100 + 1/2 = (x * 100 + 1/2) - (k : ℚ) := by ring
  rw [h, Int.floor_sub_int]
  push_cast
  ring

theorem sumBy_nil (f : α → ℚ) : sumBy [] f = 0 := rfl

theorem sumBy_cons (a : α) (l : List α) (f : α → ℚ) :
    sumBy (a :: l) f = f a + sumBy l f := by
  have h : ∀ (l : List α) (c : ℚ), l.foldl (fun s x => s + f x) c = c + l.foldl (fun s x => s + f x) 0 := by
    intro l
    induction l with
    | nil => intro c; simp
    | cons b t ih =>
      intro c
      simp only [List.foldl_cons]
      rw [ih (c + f b), ih (0 + f b)]
      ring
  simp only [sumBy, List.foldl_cons]
  rw [h l (0 + f a)]
  ring

theorem sumBy_eq_sum (l : List α) (f : α → ℚ) : sumBy l f = (l.map f).sum := by
  induction l with
  | nil => rfl
  | cons a t ih => rw [sumBy_cons, List.map_cons, List.sum_cons, ih]

theorem sumBy_eq_zero {l : List α} {f : α → ℚ} (h : ∀ x ∈ l, f x = 0) : sumBy l f = 0 := by
  rw [sumBy_eq_sum]
  exact List.sum_eq_zero (by simpa using h)

theorem reviewLookup_append_singleton (rs : List Review) (r : Review) (k : String) :
    reviewLookup (rs ++ [r]) k = if r.decision_id = k then some r else reviewLookup rs k := by
  simp [reviewLookup, List.foldl_append]

theorem reviewLookup_eq_find_reverse (rs : List Review) (k : String) :
    reviewLookup rs k = rs.reverse.find? (fun r => r.decision_id = k) := by
  induction rs using List.reverseRecOn with
  | nil => rfl
  | append_singleton t r ih =>
    rw [reviewLookup_append_singleton, List.reverse_append]
    simp only [List.reverse_cons, List.reverse_nil, List.nil_append, List.cons_append,
      List.find?]
    by_cases h : r.decision_id = k
    · simp [h]
    · simp [h, ih]

theorem reviewLookup_eq_some {rs : List Review} {k : String} {r : Review}
    (h : reviewLookup rs k = some r) : r ∈ rs ∧ r.decision_id = k := by
  rw [reviewLookup_eq_find_reverse] at h
  refine ⟨List.mem_reverse.mp (List.mem_of_find?_eq_some h), ?_⟩
  have := List.find?_some h
  simpa using this

theorem reviewLookup_isSome_iff (rs : List Review) (k : String) :
    (reviewLookup rs k).isSome ↔ ∃ r ∈ rs, r.decision_id = k := by
  rw [reviewLookup_eq_find_reverse, List.find?_isSome]
  constructor
  · rintro ⟨r, hr, hid⟩
    exact ⟨r, List.mem_reverse.mp hr, by simpa using hid⟩
  · rintro ⟨r, hr, hid⟩
    exact ⟨r, List.mem_reverse.mpr hr, by simpa using hid⟩

theorem reviewLookup_eq_none_iff (rs : List Review) (k : String) :
    reviewLookup rs k = none ↔ ∀ r ∈ rs, r.decision_id ≠ k := by
  rw [reviewLookup_eq_find_reverse, List.find?_eq_none]
  constructor
  · intro h r hr
    simpa using h r (List.mem_reverse.mpr hr)
  · intro h r hr
    simpa using h r (List.mem_reverse.mp hr)

theorem computeBaselines_reviewCount (l : List DerivedDecision) :
    (computeBaselines l).reviewCount = l.length := by
  rw [computeBaselines]
  by_cases h : l.length = 0
  · simp [h]
  · simp [h]

theorem computeBaselines_empty : computeBaselines [] =
    { reviewCount := 0, avgOutcomeScore := 0, avgSurprise := 0, avgCalibrationError := 0 } := rfl

theorem computeBaselines_of_ne {l : List DerivedDecision} (h : l.length ≠ 0) :
    computeBaselines l =
      { reviewCount := l.length
        avgOutcomeScore := jsRound (sumBy l (fun d => d.outcomeScore) / l.length)
        avgSurprise := jsRound (sumBy l (fun d => d.review.surprise_score) / l.length)
        avgCalibrationError := jsRound (sumBy l (fun d => d.calibrationError) / l.length) } := by
  rw [computeBaselines]
  simp [h]

theorem jsRound_div100 (x : ℚ) : ∃ k : ℤ, jsRound x = (k : ℚ) / 100 :=
  ⟨(x * 100 + 1/2).floor, rfl⟩

theorem baseline_fields_div100 (l : List DerivedDecision) :
    (∃ k : ℤ, (computeBaselines l).avgOutcomeScore = (k : ℚ) / 100) ∧
    (∃ k : ℤ, (computeBaselines l).avgSurprise = (k : ℚ) / 100) ∧
    (∃ k : ℤ, (computeBaselines l).avgCalibrationError = (k : ℚ) / 100) := by
  by_cases h : l.length = 0
  · have hl : l = [] := List.length_eq_zero.mp h
    subst hl
    exact ⟨⟨0, by simp [computeBaselines_empty]⟩, ⟨0, by simp [computeBaselines_empty]⟩,
      ⟨0, by simp [computeBaselines_empty]⟩⟩
  · rw [computeBaselines_of_ne h]
    exact ⟨jsRound_div100 _, jsRound_div100 _, jsRound_div100 _⟩

theorem derivePairs_length (ds : List Decision) (rs : List Review) :
    (derivePairs ds rs).length =
      ds.countP (fun d => (reviewLookup rs (decisionKey d)).isSome) := by
  induction ds with
  | nil => rfl
  | cons d t ih =>
    simp only [derivePairs] at ih ⊢
    rw [List.filterMap_cons, List.countP_cons]
    cases h : reviewLookup rs (decisionKey d) with
    | none => simp [h, ih]
    | some r => simp [h, ih, Nat.add_comm]

theorem derive_perm_derivePairs (ds : List Decision) (rs : List Review) :
    List.Perm (derive ds rs) (derivePairs ds rs) :=
  List.perm_insertionSort _ _

theorem derive_length (ds : List Decision) (rs : List Review) :
    (derive ds rs).length = (derivePairs ds rs).length :=
  (derive_perm_derivePairs ds rs).length_eq

theorem derive_sorted (ds : List Decision) (rs : List Review) :
    List.Sorted reviewedAtLE (derive ds rs) :=
  List.sorted_insertionSort _ _

theorem mem_derivePairs {ds : List Decision} {rs : List Review} {p : DerivedDecision} :
    p ∈ derivePairs ds rs ↔
      ∃ d ∈ ds, ∃ r, reviewLookup rs (decisionKey d) = some r ∧ p = mkDerived d r := by
  rw [derivePairs, List.mem_filterMap]
  constructor
  · rintro ⟨d, hd, hp⟩
    cases h : reviewLookup rs (decisionKey d) with
    | none => simp [h] at hp
    | some r =>
      rw [h] at hp
      refine ⟨d, hd, r, h, ?_⟩
      have hp2 : some (mkDerived d r) = some p := hp
      exact (Option.some_injective _ hp2).symm
  · rintro ⟨d, hd, r, hr, hp⟩
    exact ⟨d, hd, by rw [hr, hp]; rfl⟩

theorem perm_filterMap (f : α → Option β) {l₁ l₂ : List α} (h : List.Perm l₁ l₂) :
    List.Perm (l₁.filterMap f) (l₂.filterMap f) := by
  induction h with
  | nil => exact List.Perm.refl _
  | cons x _ ih =>
    rw [List.filterMap_cons, List.filterMap_cons]
    cases f x with
    | none => exact ih
    | some b => exact ih.cons b
  | swap x y l =>
    rw [List.filterMap_cons, List.filterMap_cons, List.filterMap_cons, List.filterMap_cons]
    cases f x with
    | none => cases f y with
      | none => exact List.Perm.refl _
      | some b => exact List.Perm.refl _
    | some b => cases f y with
      | none => exact List.Perm.refl _
      | some c => exact List.Perm.swap b c _
  | trans _ _ ih₁ ih₂ => exact ih₁.trans ih₂

theorem reviewLookup_perm {rs₁ rs₂ : List Review} (h : List.Perm rs₁ rs₂)
    (hnd : (rs₁.map (fun r => r.decision_id)).Nodup) (k : String) :
    reviewLookup rs₁ k = reviewLookup rs₂ k := by
  cases e₁ : reviewLookup rs₁ k with
  | none =>
    cases e₂ : reviewLookup rs₂ k with
    | none => rfl
    | some b =>
      obtain ⟨hb, hbid⟩ := reviewLookup_eq_some e₂
      exact absurd hbid ((reviewLookup_eq_none_iff rs₁ k).mp e₁ b (h.mem_iff.mpr hb))
  | some a =>
    cases e₂ : reviewLookup rs₂ k with
    | none =>
      obtain ⟨ha, haid⟩ := reviewLookup_eq_some e₁
      exact absurd haid ((reviewLookup_eq_none_iff rs₂ k).mp e₂ a (h.mem_iff.mp ha))
    | some b =>
      obtain ⟨ha, haid⟩ := reviewLookup_eq_some e₁
      obtain ⟨hb, hbid⟩ := reviewLookup_eq_some e₂
      have hab : a = b :=
        List.inj_on_of_nodup_map hnd ha (h.mem_iff.mpr hb) (by rw [haid, hbid])
      rw [hab]

theorem sorted_perm_nodup_keys_eq :
    ∀ {l₁ l₂ : List DerivedDecision}, List.Perm l₁ l₂ →
      List.Sorted reviewedAtLE l₁ → List.Sorted reviewedAtLE l₂ →
      (l₁.map (fun d => d.reviewedAt)).Nodup → l₁ = l₂
  | [], l₂, hp, _, _, _ => (List.Perm.nil_eq hp).symm.symm ▸ rfl
  | a :: t₁, l₂, hp, hs₁, hs₂, hk => by
    cases l₂ with
    | nil => exact absurd hp.symm (by simp)
    | cons b t₂ =>
      have hab : a = b := by
        have haMem : a ∈ b :: t₂ := hp.mem_iff.mp (List.mem_cons_self a t₁)
        have hbMem : b ∈ a :: t₁ := hp.mem_iff.mpr (List.mem_cons_self b t₂)
        rcases List.mem_cons.mp haMem with h₁ | h₁
        · exact h₁
        rcases List.mem_cons.mp hbMem with h₂ | h₂
        · exact h₂.symm
        have hle₁ : a.reviewedAt ≤ b.reviewedAt := List.rel_of_sorted_cons hs₁ b h₂
        have hle₂ : b.reviewedAt ≤ a.reviewedAt := List.rel_of_sorted_cons hs₂ a h₁
        have hkey : a.reviewedAt = b.reviewedAt := le_antisymm hle₁ hle₂
        rw [List.map_cons, List.nodup_cons] at hk
        exact absurd (hkey ▸ List.mem_map_of_mem _ h₂) hk.1
      subst hab
      have ht : t₁ = t₂ :=
        sorted_perm_nodup_keys_eq hp.cons_inv hs₁.of_cons hs₂.of_cons
          (by rw [List.map_cons, List.nodup_cons] at hk; exact hk.2)
      rw [ht]

theorem derivePairs_keys_nodup {ds : List Decision} {rs : List Review}
    (hd : (ds.map decisionKey).Nodup)
    (hrid : (rs.map (fun r => r.decision_id)).Nodup)
    (hrt : (rs.map (fun r => r.reviewed_at)).Nodup) :
    ((derivePairs ds rs).map (fun d => d.reviewedAt)).Nodup := by
  induction ds with
  | nil => simp [derivePairs]
  | cons d t ih =>
    rw [List.map_cons, List.nodup_cons] at hd
    have ih2 := ih hd.2
    simp only [derivePairs, List.filterMap_cons]
    cases h : reviewLookup rs (decisionKey d) with
    | none => exact ih2
    | some r =>
      rw [Option.map_some', List.map_cons, List.nodup_cons]
      refine ⟨?_, ih2⟩
      intro hmem
      obtain ⟨p, hpMem, hpt⟩ := List.mem_map.mp hmem
      obtain ⟨d2, hd2, r2, hr2, hp⟩ := mem_derivePairs.mp hpMem
      obtain ⟨hrMem, hrId⟩ := reviewLookup_eq_some h
      obtain ⟨hr2Mem, hr2Id⟩ := reviewLookup_eq_some hr2
      have hkeyNe : decisionKey d2 ≠ decisionKey d :=
        fun he => hd.1 (he ▸ List.mem_map_of_mem decisionKey hd2)
      have hidNe : r2 ≠ r := fun he => hkeyNe (by rw [← hr2Id, he, hrId])
      have htEq : r2.reviewed_at = r.reviewed_at := by
        have : p.reviewedAt = (mkDerived d r).reviewedAt := hpt
        rw [hp] at this
        exact this
      exact hidNe (List.inj_on_of_nodup_map hrt hr2Mem hrMem htEq)

theorem derive_perm {ds₁ ds₂ : List Decision} {rs₁ rs₂ : List Review}
    (hd : List.Perm ds₁ ds₂) (hr : List.Perm rs₁ rs₂)
    (hdk : (ds₁.map decisionKey).Nodup)
    (hrid : (rs₁.map (fun r => r.decision_id)).Nodup)
    (hrt : (rs₁.map (fun r => r.reviewed_at)).Nodup) :
    derive ds₁ rs₁ = derive ds₂ rs₂ := by
  have hlookup : ∀ d : Decision,
      (reviewLookup rs₁ (decisionKey d)).map (mkDerived d) =
        (reviewLookup rs₂ (decisionKey d)).map (mkDerived d) := by
    intro d
    rw [reviewLookup_perm hr hrid]
  have hpairs₂ : derivePairs ds₂ rs₂ = derivePairs ds₂ rs₁ := by
    unfold derivePairs
    exact List.filterMap_congr (fun d _ => (hlookup d).symm)
  have hpp : List.Perm (derivePairs ds₁ rs₁) (derivePairs ds₂ rs₂) := by
    rw [hpairs₂]
    exact perm_filterMap _ hd
  have hperm : List.Perm (derive ds₁ rs₁) (derive ds₂ rs₂) :=
    ((derive_perm_derivePairs ds₁ rs₁).trans hpp).trans (derive_perm_derivePairs ds₂ rs₂).symm
  refine sorted_perm_nodup_keys_eq hperm (derive_sorted ds₁ rs₁) (derive_sorted ds₂ rs₂) ?_
  have hnd : ((derivePairs ds₁ rs₁).map (fun d => d.reviewedAt)).Nodup :=
    derivePairs_keys_nodup hdk hrid hrt
  exact (((derive_perm_derivePairs ds₁ rs₁).map (fun d => d.reviewedAt)).nodup_iff).mpr hnd

theorem insightsOfDerived_cards (l : List DerivedDecision) :
    (insightsOfDerived l).cards =
      (if 3 ≤ l.length ∧ 0 < l.length then [baselineCardOf l (computeBaselines l)] else []) ++
      (if 8 ≤ l.length then mineSegments l (computeBaselines l) else []) ++
      (if 12 ≤ l.length then analyzeTrends l else []) := rfl

theorem insightsOfDerived_baseline (l : List DerivedDecision) :
    (insightsOfDerived l).baseline = computeBaselines l := rfl

theorem generateInsights_def (ds : List Decision) (rs : List Review) :
    generateInsights ds rs = insightsOfDerived (derive ds rs) := rfl

theorem baselineCardOf_id (l : List DerivedDecision) (b : BaselineStats) :
    (baselineCardOf l b).id = "calibration-summary" := rfl

theorem baselineCardOf_strength (l : List DerivedDecision) (b : BaselineStats) :
    (baselineCardOf l b).strength =
      if 8 ≤ l.length then InsightStrength.strong else InsightStrength.medium := rfl

theorem trendCards_length_le (w : Nat) (a b c : ℚ) : (trendCards w a b c).length ≤ 3 := by
  rw [trendCards]
  split_ifs <;> simp

theorem mem_ite_singleton {p : Prop} [Decidable p] {x card : InsightCard}
    (h : card ∈ (if p then [x] else [])) : card = x ∧ p := by
  split_ifs at h with hp
  · exact ⟨by simpa using h, hp⟩
  · simp at h

theorem mem_trendCards_outcome (w : Nat) (a b c : ℚ) :
    (∃ card ∈ trendCards w a b c, card.id = "trend-outcome") ↔ 1/2 ≤ |a| := by
  rw [trendCards]
  split_ifs with h1 h2 h3 <;>
    simp_all [outcomeTrendCard, surpriseTrendCard, calibrationTrendCard]

theorem mem_trendCards_surprise (w : Nat) (a b c : ℚ) :
    (∃ card ∈ trendCards w a b c, card.id = "trend-surprise") ↔ 8 ≤ |b| := by
  rw [trendCards]
  split_ifs with h1 h2 h3 <;>
    simp_all [outcomeTrendCard, surpriseTrendCard, calibrationTrendCard]

theorem mem_trendCards_calibration (w : Nat) (a b c : ℚ) :
    (∃ card ∈ trendCards w a b c, card.id = "trend-calibration") ↔ 1/20 ≤ |c| := by
  rw [trendCards]
  split_ifs with h1 h2 h3 <;>
    simp_all [outcomeTrendCard, surpriseTrendCard, calibrationTrendCard]

theorem trendCards_strength (w : Nat) (a b c : ℚ) :
    ∀ card ∈ trendCards w a b c,
      (card.id = "trend-outcome" →
        card.strength = if 1 < |a| then InsightStrength.strong else InsightStrength.medium) ∧
      (card.id = "trend-surprise" →
        card.strength = if 15 < |b| then InsightStrength.strong else InsightStrength.medium) ∧
      (card.id = "trend-calibration" →
        card.strength = if 3/25 < |c| then InsightStrength.strong else InsightStrength.medium) := by
  intro card hcard
  rw [trendCards] at hcard
  rcases List.mem_append.mp hcard with hOS | hC
  · rcases List.mem_append.mp hOS with hO | hS
    · obtain ⟨he, -⟩ := mem_ite_singleton hO
      subst he
      refine ⟨fun _ => rfl, fun h => ?_, fun h => ?_⟩ <;> simp [outcomeTrendCard] at h
    · obtain ⟨he, -⟩ := mem_ite_singleton hS
      subst he
      refine ⟨fun h => ?_, fun _ => rfl, fun h => ?_⟩ <;> simp [surpriseTrendCard] at h
  · obtain ⟨he, -⟩ := mem_ite_singleton hC
    subst he
    refine ⟨fun h => ?_, fun h => ?_, fun _ => rfl⟩ <;> simp [calibrationTrendCard] at h

theorem cards_eq_nil_of_lt3 (decisions : List Decision) (reviews : List Review)
    (h : (derive decisions reviews).length < 3) :
    (generateInsights decisions reviews).cards = [] := by
  have h3 : ¬(3 ≤ (derive decisions reviews).length ∧ 0 < (derive decisions reviews).length) := by
    omega
  have h8 : ¬(8 ≤ (derive decisions reviews).length) := by omega
  have h12 : ¬(12 ≤ (derive decisions reviews).length) := by omega
  rw [generateInsights_def, insightsOfDerived_cards, if_neg h3, if_neg h8, if_neg h12]
  rfl

theorem analyzeTrends_eq (derived : List DerivedDecision) (h2 : 2 ≤ derived.length) :
    analyzeTrends derived = trendCards (trendWindow derived.length)
      (trendDelta derived (fun d => d.outcomeScore))
      (trendDelta derived (fun d => d.review.surprise_score))
      (trendDelta derived (fun d => d.calibrationError)) := by
  have hw2 : trendWindow derived.length ≤ derived.length / 2 :=
    min_le_right _ _
  have hw1 : 1 ≤ trendWindow derived.length :=
    le_min (by omega) (by omega)
  have hn : ¬(derived.length < 2) := by omega
  have hwlt : ¬(min 10 (derived.length / 2) < 1) := by
    rw [show min 10 (derived.length / 2) = trendWindow derived.length from rfl]
    omega
  have hpv : ¬(((derived.drop (derived.length - 2 * min 10 (derived.length / 2))).take
      (min 10 (derived.length / 2))).length = 0) := by
    rw [List.length_take, List.length_drop,
      show min 10 (derived.length / 2) = trendWindow derived.length from rfl]
    have := hw2
    omega
  simp only [analyzeTrends]
  rw [if_neg hn, if_neg hwlt, if_neg hpv]
  rfl

theorem segmentCard?_empty (baseline : BaselineStats) (c : SegCombo) :
    segmentCard? [] baseline c = none := by
  simp [segmentCard?]

theorem segmentCard?_isSome_iff (derived : List DerivedDecision) (baseline : BaselineStats)
    (hb : baseline.reviewCount ≠ 0) (c : SegCombo) :
    (segmentCard? derived baseline c).isSome ↔
      (5 ≤ (derived.filter (segMatches c)).length ∧
        (|sumBy (derived.filter (segMatches c)) (fun x => x.outcomeScore) /
              (derived.filter (segMatches c)).length - baseline.avgOutcomeScore| ≥ 1/2 ∨
          |sumBy (derived.filter (segMatches c)) (fun x => x.review.surprise_score) /
              (derived.filter (segMatches c)).length - baseline.avgSurprise| ≥ 12 ∨
          |sumBy (derived.filter (segMatches c)) (fun x => x.calibrationError) /
              (derived.filter (segMatches c)).length - baseline.avgCalibrationError| ≥ 3/20 ∨
          sumBy (derived.filter (segMatches c))
              (fun x => if x.review.would_repeat = WouldRepeat.yes then 1 else 0) /
              (derived.filter (segMatches c)).length < 1/2)) := by
  have hg : GATING_THRESHOLDS.segmentMinSamples = 5 := rfl
  simp only [segmentCard?, hg]
  rw [if_pos hb, if_pos hb, if_pos hb]
  split_ifs with h0 h5 hint <;>
    first
      | (simp only [Option.isSome_some, true_iff]; exact ⟨by omega, hint⟩)
      | (simp [h0]; done)
      | (simp only [Option.isSome_none, Bool.false_eq_true, false_iff, not_and]
         intro hlen
         first
           | omega
           | exact hint)

theorem mineSegments_sorted (derived : List DerivedDecision) (baseline : BaselineStats) :
    List.Sorted liftScoreGE (mineSegments derived baseline) := by
  rw [mineSegments]
  exact List.Pairwise.sublist (List.take_sublist 6 _)
    (List.sorted_insertionSort liftScoreGE _)

theorem mineSegments_length_le (derived : List DerivedDecision) (baseline : BaselineStats) :
    (mineSegments derived baseline).length ≤ 6 := by
  rw [mineSegments, List.length_take]
  exact min_le_left _ _

theorem mem_mineSegments (derived : List DerivedDecision) (baseline : BaselineStats)
    {card : InsightCard} (h : card ∈ mineSegments derived baseline) :
    ∃ combo ∈ allCombos, segmentCard? derived baseline combo = some card := by
  rw [mineSegments] at h
  have h2 := List.take_subset 6 _ h
  rw [List.mem_insertionSort] at h2
  exact List.mem_filterMap.mp h2

/-! Claim theorems. -/

/-- C3: for every input, the returned baseline's review_count equals the
number of input decisions that have a matching review and never exceeds
the number of input decisions; when that count is 0 every baseline field
is 0 (the computation is total and never yields a partial value). -/
theorem c3_baseline_review_count (decisions : List Decision) (reviews : List Review) :
    (generateInsights decisions reviews).baseline.reviewCount =
      decisions.countP (fun d => decide (∃ r ∈ reviews, r.decision_id = decisionKey d)) ∧
    (generateInsights decisions reviews).baseline.reviewCount ≤ decisions.length ∧
    ((generateInsights decisions reviews).baseline.reviewCount = 0 →
      (generateInsights decisions reviews).baseline =
        { reviewCount := 0, avgOutcomeScore := 0, avgSurprise := 0,
          avgCalibrationError := 0 }) := by
  have hcount : (generateInsights decisions reviews).baseline.reviewCount =
      decisions.countP (fun d => decide (∃ r ∈ reviews, r.decision_id = decisionKey d)) := by
    rw [generateInsights_def, insightsOfDerived_baseline, computeBaselines_reviewCount,
      derive_length, derivePairs_length]
    refine List.countP_congr (fun d _ => ?_)
    simp [reviewLookup_isSome_iff]
  refine ⟨hcount, ?_, ?_⟩
  · rw [hcount]
    exact List.countP_le_length _
  · intro h0
    rw [generateInsights_def, insightsOfDerived_baseline] at h0 ⊢
    rw [computeBaselines_reviewCount] at h0
    rw [List.length_eq_zero.mp h0]
    rfl

/-- Witness for C3 at a concrete input. -/
theorem c3_baseline_review_count_witness :
    (generateInsights scCdecisions scCreviews).baseline.reviewCount =
      scCdecisions.countP
        (fun d => decide (∃ r ∈ scCreviews, r.decision_id = decisionKey d)) ∧
    (generateInsights scCdecisions scCreviews).baseline.reviewCount ≤ scCdecisions.length ∧
    ((generateInsights scCdecisions scCreviews).baseline.reviewCount = 0 →
      (generateInsights scCdecisions scCreviews).baseline =
        { reviewCount := 0, avgOutcomeScore := 0, avgSurprise := 0,
          avgCalibrationError := 0 }) :=
  c3_baseline_review_count scCdecisions scCreviews

/-- C4: the assembled cards list is empty whenever the number of derived
pairs (the review count) is below 3. -/
theorem c4_cards_empty_below_gate (decisions : List Decision) (reviews : List Review)
    (h : (derive decisions reviews).length < 3) :
    (generateInsights decisions reviews).cards = [] :=
  cards_eq_nil_of_lt3 decisions reviews h

/-- Witness for C4 at the empty input. -/
theorem c4_cards_empty_below_gate_witness :
    (derive ([] : List Decision) ([] : List Review)).length < 3 ∧
    (generateInsights ([] : List Decision) ([] : List Review)).cards = [] :=
  ⟨by with_unfolding_all decide,
    c4_cards_empty_below_gate [] [] (by with_unfolding_all decide)⟩

/-- C10: the cards list is non-empty exactly when the review count
reaches 3, and in that case its first card is the calibration summary,
strong from 8 reviews on and medium below. -/
theorem c10_first_card_is_calibration_summary (decisions : List Decision)
    (reviews : List Review) :
    ((generateInsights decisions reviews).cards ≠ [] ↔
      3 ≤ (derive decisions reviews).length) ∧
    (3 ≤ (derive decisions reviews).length →
      ∃ c, (generateInsights decisions reviews).cards.head? = some c ∧
        c.id = "calibration-summary" ∧
        c.strength = (if 8 ≤ (derive decisions reviews).length then InsightStrength.strong
          else InsightStrength.medium)) := by
  by_cases h3 : 3 ≤ (derive decisions reviews).length
  · have hcards : (generateInsights decisions reviews).cards =
        baselineCardOf (derive decisions reviews)
            (computeBaselines (derive decisions reviews)) ::
          ((if 8 ≤ (derive decisions reviews).length
              then mineSegments (derive decisions reviews)
                (computeBaselines (derive decisions reviews)) else []) ++
            (if 12 ≤ (derive decisions reviews).length
              then analyzeTrends (derive decisions reviews) else [])) := by
      rw [generateInsights_def, insightsOfDerived_cards, if_pos ⟨h3, by omega⟩]
      rfl
    constructor
    · simp [hcards, h3]
    · intro _
      refine ⟨_, by rw [hcards]; rfl, baselineCardOf_id _ _, baselineCardOf_strength _ _⟩
  · have hempty := cards_eq_nil_of_lt3 decisions reviews (by omega)
    constructor
    · simp [hempty, h3]
    · intro h
      exact absurd h h3

/-- Witness for C10 at a concrete input with 8 reviews. -/
theorem c10_first_card_is_calibration_summary_witness :
    ((generateInsights scCdecisions scCreviews).cards ≠ [] ↔
      3 ≤ (derive scCdecisions scCreviews).length) ∧
    (3 ≤ (derive scCdecisions scCreviews).length →
      ∃ c, (generateInsights scCdecisions scCreviews).cards.head? = some c ∧
        c.id = "calibration-summary" ∧
        c.strength = (if 8 ≤ (derive scCdecisions scCreviews).length then InsightStrength.strong
          else InsightStrength.medium)) :=
  c10_first_card_is_calibration_summary scCdecisions scCreviews

/-- C7 counterexample: eight derived pairs whose outcome scores average
exactly 1/8 = 0.125.  The code rounds the tie up to 0.13, round half to
even would give 0.12, so the baseline average is not computed with
bankers rounding. -/
theorem c7_counterexample :
    (computeBaselines (derive tieDecisions tieReviews)).avgOutcomeScore = 13/100 ∧
    ((derive tieDecisions tieReviews).map (fun d => d.outcomeScore)).sum /
        (derive tieDecisions tieReviews).length = 1/8 ∧
    roundHalfEven2 (1/8) = 12/100 ∧
    (13 : ℚ)/100 ≠ 12/100 := by
  refine ⟨by with_unfolding_all decide, by with_unfolding_all decide,
    by with_unfolding_all decide, by with_unfolding_all decide⟩

/-- C7 (amended): for every non-empty derived-pair list the three baseline
averages are the arithmetic means rounded to 2 decimal places with
Math.round semantics (ties toward positive infinity), not round half to
even. -/
theorem c7_baseline_rounding (derived : List DerivedDecision) (h : derived ≠ []) :
    (computeBaselines derived).avgOutcomeScore =
      jsRound ((derived.map (fun d => d.outcomeScore)).sum / derived.length) ∧
    (computeBaselines derived).avgSurprise =
      jsRound ((derived.map (fun d => d.review.surprise_score)).sum / derived.length) ∧
    (computeBaselines derived).avgCalibrationError =
      jsRound ((derived.map (fun d => d.calibrationError)).sum / derived.length) := by
  have hlen : derived.length ≠ 0 := by
    intro he
    exact h (List.length_eq_zero.mp he)
  rw [computeBaselines_of_ne hlen]
  refine ⟨?_, ?_, ?_⟩ <;> simp only [sumBy_eq_sum]

/-- Witness for C7 (amended) at a concrete non-empty input. -/
theorem c7_baseline_rounding_witness :
    derive tieDecisions tieReviews ≠ [] ∧
    (computeBaselines (derive tieDecisions tieReviews)).avgOutcomeScore =
      jsRound (((derive tieDecisions tieReviews).map (fun d => d.outcomeScore)).sum /
        (derive tieDecisions tieReviews).length) :=
  ⟨by with_unfolding_all decide,
    (c7_baseline_rounding (derive tieDecisions tieReviews)
      (by with_unfolding_all decide)).1⟩

/-- C5: the engine is total by construction (generateInsights is a Lean
function); unknown expectation_comparison strings are coerced to outcome
score 0 by the lookup fallback; a zero review count yields the all-zero
baseline, an empty cards list and absent summaries rather than a failure;
and a regret rate over an empty speed partition is 0. -/
theorem c5_totality (decisions : List Decision) (reviews : List Review) :
    (∀ s : String,
      s ∉ ["much_worse", "slightly_worse", "as_expected", "slightly_better", "much_better"] →
        outcomeScoreMap s = 0) ∧
    ((generateInsights decisions reviews).baseline.reviewCount = 0 →
      (generateInsights decisions reviews).baseline =
        { reviewCount := 0, avgOutcomeScore := 0, avgSurprise := 0,
          avgCalibrationError := 0 } ∧
      (generateInsights decisions reviews).cards = [] ∧
      (generateInsights decisions reviews).confidence = none ∧
      (generateInsights decisions reviews).surprise = none ∧
      (generateInsights decisions reviews).speed = none ∧
      (generateInsights decisions reviews).repeatInsight = none) ∧
    speedRegretRate [] = 0 ∧
    (generateInsights decisions reviews).reviewCount =
      (derive decisions reviews).length := by
  refine ⟨?_, ?_, rfl, rfl⟩
  · intro s hs
    rw [outcomeScoreMap]
    simp only [List.mem_cons, List.mem_singleton, not_or] at hs
    obtain ⟨h1, h2, h3, h4, h5, -⟩ := hs
    rw [if_neg h1, if_neg h2, if_neg h3, if_neg h4, if_neg h5]
  · intro h0
    rw [generateInsights_def, insightsOfDerived_baseline, computeBaselines_reviewCount] at h0
    have he : derive decisions reviews = [] := List.length_eq_zero.mp h0
    rw [generateInsights_def, he]
    refine ⟨rfl, ?_, rfl, rfl, rfl, rfl⟩
    rw [insightsOfDerived_cards]
    simp

/-- Witness for C5 at a concrete input. -/
theorem c5_totality_witness :
    (∀ s : String,
      s ∉ ["much_worse", "slightly_worse", "as_expected", "slightly_better", "much_better"] →
        outcomeScoreMap s = 0) ∧
    ((generateInsights ([] : List Decision) ([] : List Review)).baseline.reviewCount = 0 →
      (generateInsights ([] : List Decision) ([] : List Review)).baseline =
        { reviewCount := 0, avgOutcomeScore := 0, avgSurprise := 0,
          avgCalibrationError := 0 } ∧
      (generateInsights ([] : List Decision) ([] : List Review)).cards = [] ∧
      (generateInsights ([] : List Decision) ([] : List Review)).confidence = none ∧
      (generateInsights ([] : List Decision) ([] : List Review)).surprise = none ∧
      (generateInsights ([] : List Decision) ([] : List Review)).speed = none ∧
      (generateInsights ([] : List Decision) ([] : List Review)).repeatInsight = none) ∧
    speedRegretRate [] = 0 ∧
    (generateInsights ([] : List Decision) ([] : List Review)).reviewCount =
      (derive ([] : List Decision) ([] : List Review)).length :=
  c5_totality [] []

/-- C6 counterexample: one decision with two reviews sharing its
decision_id.  Swapping the two reviews is a permutation of the same
multisets, yet the baseline changes, because the review map keeps the
last review written for a key. -/
theorem c6_counterexample :
    List.Perm [dupReviewA, dupReviewB] [dupReviewB, dupReviewA] ∧
    (generateInsights [dupDecision] [dupReviewA, dupReviewB]).baseline ≠
      (generateInsights [dupDecision] [dupReviewB, dupReviewA]).baseline :=
  ⟨List.Perm.swap dupReviewB dupReviewA [], by with_unfolding_all decide⟩

/-- C6 (amended): permutation insensitivity holds once the inputs are
free of the two tie sources the code is sensitive to: no two reviews
share a decision_id, no two reviews share a reviewed_at timestamp, and
no two decisions share a stringified id. -/
theorem c6_permutation_invariance (ds₁ ds₂ : List Decision) (rs₁ rs₂ : List Review)
    (hd : List.Perm ds₁ ds₂) (hr : List.Perm rs₁ rs₂)
    (hdk : (ds₁.map decisionKey).Nodup)
    (hrid : (rs₁.map (fun r => r.decision_id)).Nodup)
    (hrt : (rs₁.map (fun r => r.reviewed_at)).Nodup) :
    generateInsights ds₁ rs₁ = generateInsights ds₂ rs₂ := by
  rw [generateInsights_def, generateInsights_def, derive_perm hd hr hdk hrid hrt]

/-- Witness for C6 (amended): swapping the first two decisions and the
first two reviews of the scenario input leaves the result unchanged. -/
theorem c6_permutation_invariance_witness :
    generateInsights scCdecisions scCreviews =
      generateInsights scCdecisionsSwapped scCreviewsSwapped :=
  c6_permutation_invariance scCdecisions scCdecisionsSwapped scCreviews scCreviewsSwapped
    (by with_unfolding_all decide) (by with_unfolding_all decide)
    (by with_unfolding_all decide) (by with_unfolding_all decide)
    (by with_unfolding_all decide)

/-- C2 counterexample: eighteen derived pairs (window 9) whose raw
calibration-error delta is 11/90, strictly greater than 0.12, yet the
emitted calibration-trend card has strength medium, because the code
compares the delta only after rounding it to 0.12. -/
theorem c2_counterexample :
    2 ≤ (derive trendDecisions trendReviews).length ∧
    3/25 <
      |avgBy (trendTail (derive trendDecisions trendReviews)) (fun d => d.calibrationError) -
        avgBy (trendPrev (derive trendDecisions trendReviews)) (fun d => d.calibrationError)| ∧
    (∃ c ∈ analyzeTrends (derive trendDecisions trendReviews),
      c.id = "trend-calibration" ∧ c.strength = InsightStrength.medium) ∧
    (∀ c ∈ analyzeTrends (derive trendDecisions trendReviews),
      c.id = "trend-calibration" → c.strength ≠ InsightStrength.strong) := by
  refine ⟨?_, ?_, ?_, ?_⟩ <;> with_unfolding_all decide

/-- C2 (amended): trend cards behave as the claim says except that each
threshold and strength cutoff is applied to the delta after rounding it
to 2 decimal places with Math.round semantics. -/
theorem c2_trend_analyzer (derived : List DerivedDecision) :
    (trendWindow derived.length < 1 ∨
        derived.length < 2 * trendWindow derived.length →
      analyzeTrends derived = []) ∧
    (1 ≤ trendWindow derived.length →
      (((∃ c ∈ analyzeTrends derived, c.id = "trend-outcome") ↔
          1/2 ≤ |trendDelta derived (fun d => d.outcomeScore)|) ∧
        (∀ c ∈ analyzeTrends derived, c.id = "trend-outcome" →
          c.strength = if 1 < |trendDelta derived (fun d => d.outcomeScore)|
            then InsightStrength.strong else InsightStrength.medium)) ∧
      (((∃ c ∈ analyzeTrends derived, c.id = "trend-surprise") ↔
          8 ≤ |trendDelta derived (fun d => d.review.surprise_score)|) ∧
        (∀ c ∈ analyzeTrends derived, c.id = "trend-surprise" →
          c.strength = if 15 < |trendDelta derived (fun d => d.review.surprise_score)|
            then InsightStrength.strong else InsightStrength.medium)) ∧
      (((∃ c ∈ analyzeTrends derived, c.id = "trend-calibration") ↔
          1/20 ≤ |trendDelta derived (fun d => d.calibrationError)|) ∧
        (∀ c ∈ analyzeTrends derived, c.id = "trend-calibration" →
          c.strength = if 3/25 < |trendDelta derived (fun d => d.calibrationError)|
            then InsightStrength.strong else InsightStrength.medium)) ∧
      (analyzeTrends derived).length ≤ 3) := by
  constructor
  · intro h
    rcases h with h | h
    · have hn : derived.length < 2 := by
        rw [trendWindow] at h
        rcases min_lt_iff.mp h with h10 | hh <;> omega
      rw [analyzeTrends, if_pos hn]
    · exfalso
      have := min_le_right 10 (derived.length / 2)
      rw [trendWindow] at h
      omega
  · intro h1
    have h2 : 2 ≤ derived.length := by
      have := le_trans h1 (min_le_right 10 (derived.length / 2))
      omega
    rw [analyzeTrends_eq derived h2]
    refine ⟨⟨mem_trendCards_outcome _ _ _ _, fun c hc hid => ((trendCards_strength _ _ _ _
      c hc).1 hid)⟩,
      ⟨mem_trendCards_surprise _ _ _ _, fun c hc hid => ((trendCards_strength _ _ _ _
        c hc).2.1 hid)⟩,
      ⟨mem_trendCards_calibration _ _ _ _, fun c hc hid => ((trendCards_strength _ _ _ _
        c hc).2.2 hid)⟩,
      trendCards_length_le _ _ _ _⟩

/-- Witness for C2 (amended): on an input with eighteen derived pairs
the analyzer emits at most three cards. -/
theorem c2_trend_analyzer_witness :
    1 ≤ trendWindow (derive trendDecisions trendReviews).length ∧
    (analyzeTrends (derive trendDecisions trendReviews)).length ≤ 3 :=
  ⟨by with_unfolding_all decide,
    ((c2_trend_analyzer (derive trendDecisions trendReviews)).2
      (by with_unfolding_all decide)).2.2.2⟩

/-- Helper: jsRound maps 0 to 0. -/
theorem jsRound_zero : jsRound 0 = 0 := by
  with_unfolding_all decide

/-- C1: with at least 8 derived pairs, the segment miner enumerates all
180 attribute combinations; a combination yields a card exactly when it
has at least 5 matching pairs and at least one interestingness condition
holds (|outcome_lift| at least 0.5, |surprise_lift| at least 12,
|cal_error_lift| at least 0.15, or repeat_rate below 0.5, lifts taken
against the baseline fields); the returned cards are sorted descending
by the sum of absolute evidence lifts and number at most 6. -/
theorem c1_segment_miner (derived : List DerivedDecision) (h8 : 8 ≤ derived.length) :
    allCombos.length = 180 ∧
    (∀ c : SegCombo,
      (segmentCard? derived (computeBaselines derived) c).isSome ↔
        (5 ≤ (derived.filter (segMatches c)).length ∧
          (|sumBy (derived.filter (segMatches c)) (fun x => x.outcomeScore) /
                (derived.filter (segMatches c)).length -
              (computeBaselines derived).avgOutcomeScore| ≥ 1/2 ∨
            |sumBy (derived.filter (segMatches c)) (fun x => x.review.surprise_score) /
                (derived.filter (segMatches c)).length -
              (computeBaselines derived).avgSurprise| ≥ 12 ∨
            |sumBy (derived.filter (segMatches c)) (fun x => x.calibrationError) /
                (derived.filter (segMatches c)).length -
              (computeBaselines derived).avgCalibrationError| ≥ 3/20 ∨
            sumBy (derived.filter (segMatches c))
                (fun x => if x.review.would_repeat = WouldRepeat.yes then 1 else 0) /
                (derived.filter (segMatches c)).length < 1/2))) ∧
    List.Sorted liftScoreGE (mineSegments derived (computeBaselines derived)) ∧
    (mineSegments derived (computeBaselines derived)).length ≤ 6 := by
  have hb : (computeBaselines derived).reviewCount ≠ 0 := by
    rw [computeBaselines_reviewCount]
    omega
  exact ⟨rfl, fun c => segmentCard?_isSome_iff derived _ hb c,
    mineSegments_sorted _ _, mineSegments_length_le _ _⟩

/-- Witness for C1 at the scenario input with 8 reviews. -/
theorem c1_segment_miner_witness :
    8 ≤ scCderived.length ∧
    (mineSegments scCderived (computeBaselines scCderived)).length ≤ 6 :=
  ⟨by with_unfolding_all decide,
    (c1_segment_miner scCderived (by with_unfolding_all decide)).2.2.2⟩

/-- C8: every numeric lift in the evidence of a returned segment card
equals that rows value minus its baseline entry, exactly, hence within
the 1e-9 tolerance the claim allows. -/
theorem c8_evidence_lift_exact (derived : List DerivedDecision) :
    ∀ card ∈ mineSegments derived (computeBaselines derived),
      ∀ e ∈ card.evidence, ∀ l : ℚ, e.lift = some l →
        ∃ b, e.baseline = some b ∧ |l - (e.value - b)| ≤ 1/1000000000 := by
  intro card hcard e he l hl
  obtain ⟨combo, hcombo, heq⟩ := mem_mineSegments _ _ hcard
  by_cases hderived : derived = []
  · rw [hderived, segmentCard?_empty] at heq
    exact Option.noConfusion heq
  have hb : (computeBaselines derived).reviewCount ≠ 0 := by
    rw [computeBaselines_reviewCount]
    intro h0
    exact hderived (List.length_eq_zero.mp h0)
  simp only [segmentCard?] at heq
  rw [if_pos hb, if_pos hb, if_pos hb] at heq
  split_ifs at heq
  all_goals try exact Option.noConfusion heq
  all_goals
    cases heq
    simp only [List.mem_cons, List.not_mem_nil, or_false] at he
    rcases he with he | he | he | he <;> subst he <;> simp only at hl
  all_goals first
    | exact Option.noConfusion hl
    | (injection hl with hl2
       subst hl2
       obtain ⟨k, hk⟩ := (baseline_fields_div100 derived).1
       exact ⟨_, rfl, by rw [hk, jsRound_sub_of_div100, sub_self, abs_zero]; norm_num⟩)
    | (injection hl with hl2
       subst hl2
       obtain ⟨k, hk⟩ := (baseline_fields_div100 derived).2.1
       exact ⟨_, rfl, by rw [hk, jsRound_sub_of_div100, sub_self, abs_zero]; norm_num⟩)
    | (injection hl with hl2
       subst hl2
       obtain ⟨k, hk⟩ := (baseline_fields_div100 derived).2.2
       exact ⟨_, rfl, by rw [hk, jsRound_sub_of_div100, sub_self, abs_zero]; norm_num⟩)

/-- Witness for C8 at the scenario input: the first evidence row of the
first returned card carries a lift and satisfies the exactness bound. -/
theorem c8_evidence_lift_exact_witness :
    c8wCard ∈ mineSegments scCderived (computeBaselines scCderived) ∧
    c8wEvidence ∈ c8wCard.evidence ∧
    c8wEvidence.lift = some c8wLift ∧
    ∃ b, c8wEvidence.baseline = some b ∧
      |c8wLift - (c8wEvidence.value - b)| ≤ 1/1000000000 :=
  ⟨by with_unfolding_all decide, by with_unfolding_all decide, by with_unfolding_all decide,
    c8_evidence_lift_exact scCderived c8wCard (by with_unfolding_all decide) c8wEvidence
      (by with_unfolding_all decide) c8wLift (by with_unfolding_all decide)⟩

/-- C9 counterexample: the exact scenario of the claim, with the 3 other
reviewed decisions outside the segment.  The segment card for
(work, high, quick, very_high) is produced with repeat_rate 0 but its
strength is weak, not at least medium. -/
theorem c9_counterexample :
    (derive scCdecisions scCreviews).length = 8 ∧
    ((derive scCdecisions scCreviews).filter (segMatches combo9)).length = 5 ∧
    (∀ p ∈ (derive scCdecisions scCreviews).filter (segMatches combo9),
      p.review.would_repeat = WouldRepeat.no) ∧
    (∃ c ∈ (generateInsights scCdecisions scCreviews).cards,
      c.id = "seg-work-high-quick-very_high" ∧ c.strength = InsightStrength.weak) ∧
    (∀ c ∈ (generateInsights scCdecisions scCreviews).cards,
      c.id = "seg-work-high-quick-very_high" →
        c.strength ≠ InsightStrength.medium ∧ c.strength ≠ InsightStrength.strong) := by
  refine ⟨?_, ?_, ?_, ?_, ?_⟩ <;> with_unfolding_all decide

/-- C9 (amended): when exactly 5 derived pairs fall in the segment
(work, high, quick, very_high), all with would_repeat = no, among at
least 8 derived pairs, the miner produces a candidate card for that
segment whose evidence shows repeat_rate = 0; its strength may be as low
as weak and the card reaches the returned list only if it ranks in the
top 6 by summed absolute lift. -/
theorem c9_segment_scenario (derived : List DerivedDecision)
    (h8 : 8 ≤ derived.length)
    (h5 : (derived.filter (segMatches combo9)).length = 5)
    (hno : ∀ p ∈ derived.filter (segMatches combo9),
      p.review.would_repeat = WouldRepeat.no) :
    (segmentCard? derived (computeBaselines derived) combo9).isSome ∧
    ∀ card, segmentCard? derived (computeBaselines derived) combo9 = some card →
      ∃ e ∈ card.evidence, e.metric = "repeatRate" ∧ e.value = 0 := by
  have hb : (computeBaselines derived).reviewCount ≠ 0 := by
    rw [computeBaselines_reviewCount]
    omega
  have hsum : sumBy (derived.filter (segMatches combo9))
      (fun x => if x.review.would_repeat = WouldRepeat.yes then (1 : ℚ) else 0) = 0 := by
    refine sumBy_eq_zero (fun p hp => ?_)
    rw [hno p hp]
    simp
  constructor
  · rw [segmentCard?_isSome_iff derived _ hb combo9]
    refine ⟨by omega, Or.inr (Or.inr (Or.inr ?_))⟩
    rw [hsum, h5]
    norm_num
  · intro card heq
    simp only [segmentCard?] at heq
    rw [if_pos hb, if_pos hb, if_pos hb] at heq
    split_ifs at heq
    all_goals try exact Option.noConfusion heq
    all_goals
      cases heq
      refine ⟨_, List.mem_cons_of_mem _ (List.mem_cons_of_mem _ (List.mem_cons_of_mem _
        (List.mem_cons_self _ _))), rfl, ?_⟩
      rw [hsum]
      rw [zero_div, zero_mul, jsRound_zero]

/-- Witness for C9 (amended) at the scenario input. -/
theorem c9_segment_scenario_witness :
    (segmentCard? scCderived (computeBaselines scCderived) combo9).isSome :=
  (c9_segment_scenario scCderived (by with_unfolding_all decide)
    (by with_unfolding_all decide) (by with_unfolding_all decide)).1

end DecisionMemory
